import Mathlib

/-!
Verification of the processing-job client module (`sagemaker/processing.py`).

The module builds request payloads for containerized batch jobs: it
normalizes user-supplied input/output descriptors (default names, rewriting
local paths to remote object-storage URIs), derives script entrypoints, and
serializes everything into request dictionaries.  We embed the pure content
of that code here: Python strings become `String`, Python `None`-able strings
become `Option String`, raised exceptions become explicit error results, the
filesystem and the remote session become explicit parameters, and the
in-place mutations plus network calls performed by a method become an
explicit returned list of events.
-/

namespace SMProcessing

/-! ### Python helpers: `os.path` and `urlparse` -/

/-- Models Python `b.startswith("/")`. -/
def startsWithSlash (b : String) : Bool :=
  match b.data with
  | [] => false
  | c :: _ => c = '/'

/-- Models Python `a.endswith("/")`. -/
def endsWithSlash (a : String) : Bool :=
  match a.data.getLast? with
  | some c => c = '/'
  | none => false

/-- Models one fusion step of POSIX `os.path.join`: the second component
replaces the path when absolute, otherwise it is appended with a separator
unless the accumulated path is empty or already ends in one. -/
def osPathJoin2 (a b : String) : String :=
  if startsWithSlash b then b
  else if a = "" ∨ endsWithSlash a then a ++ b
  else a ++ "/" ++ b

/-- Models POSIX `os.path.join(p, *ps)` as a left fold of `osPathJoin2`. -/
def osPathJoin : List String → String
  | [] => ""
  | p :: ps => ps.foldl osPathJoin2 p

/-- Models POSIX `os.path.basename`: the maximal suffix not containing a
separator. -/
def osPathBasename (s : String) : String :=
  ⟨(s.data.reverse.takeWhile (fun c => c ≠ '/')).reverse⟩

/-- Character set allowed in a URL scheme by `urllib.parse`. -/
def isSchemeChar (c : Char) : Bool :=
  c.isAlphanum || c = '+' || c = '-' || c = '.'

/-- The characters before the first colon, or `none` when there is no
colon. -/
def beforeColon : List Char → Option (List Char)
  | [] => none
  | c :: rest =>
      if c = ':' then some []
      else match beforeColon rest with
        | none => none
        | some pre => some (c :: pre)

/-- True when the first character is an ASCII letter. -/
def headIsAlpha : List Char → Bool
  | [] => false
  | c :: _ => c.isAlpha

/-- Models `urlparse(s).scheme`: the lowercased text before the first colon,
when it is a non-empty run of scheme characters starting with a letter;
otherwise the empty string. -/
def urlScheme (s : String) : String :=
  match beforeColon s.data with
  | some pre =>
      if pre ≠ [] ∧ headIsAlpha pre ∧ pre.all isSchemeChar
      then ⟨pre.map Char.toLower⟩ else ""
  | none => ""

/-! ### Errors and request-dictionary values -/

/-- The exceptions that the module raises. -/
inductive PyError where
  | valueError : String → PyError
  | typeError : String → PyError
deriving DecidableEq, Repr

instance {ε α : Type} [DecidableEq ε] [DecidableEq α] : DecidableEq (Except ε α) :=
  fun a b =>
    match a, b with
    | .error e, .error f =>
        match decEq e f with
        | isTrue h => isTrue (h ▸ rfl)
        | isFalse h => isFalse fun c => h (Except.error.inj c)
    | .ok x, .ok y =>
        match decEq x y with
        | isTrue h => isTrue (h ▸ rfl)
        | isFalse h => isFalse fun c => h (Except.ok.inj c)
    | .error _, .ok _ => isFalse fun c => Except.noConfusion c
    | .ok _, .error _ => isFalse fun c => Except.noConfusion c

/-- A value in a request dictionary: a string, a Python `None`, or a nested
dictionary (modelled as an association list preserving insertion order). -/
inductive RVal where
  | str : String → RVal
  | null : RVal
  | obj : List (String × RVal) → RVal

/-- A `None`-able Python string as a dictionary value. -/
def optStr : Option String → RVal
  | some s => RVal.str s
  | none => RVal.null

/-! ### Descriptor records -/

/-- Embeds `ProcessingInput.__init__`: field defaults are the Python
defaults, and fields whose Python default is `None` are `Option String`.
Note the default compression is the STRING `"None"`, not Python `None`. -/
structure ProcessingInput where
  source : String
  destination : String
  input_name : Option String := none
  s3_data_type : String := "ManifestFile"
  s3_input_mode : String := "File"
  s3_download_mode : String := "Continuous"
  s3_data_distribution_type : String := "FullyReplicated"
  s3_compression_type : Option String := some "None"
deriving DecidableEq, Repr

/-- Embeds `ProcessingOutput.__init__` with the Python defaults. -/
structure ProcessingOutput where
  source : String
  destination : String
  output_name : Option String := none
  kms_key_id : Option String := none
  s3_upload_mode : String := "Continuous"
deriving DecidableEq, Repr

/-- Embeds `ProcessingInput.to_request_dict`: builds the nested request
dictionary, raising `ValueError` when compression is `"Gzip"` while the
input mode is not `"Pipe"`, and appending `S3CompressionType` exactly when
the compression field is not Python `None`. -/
def ProcessingInput.to_request_dict (i : ProcessingInput) : Except PyError RVal :=
  if i.s3_compression_type = some "Gzip" ∧ i.s3_input_mode ≠ "Pipe" then
    .error (.valueError "Data can only be gzipped when the input mode is Pipe.")
  else
    .ok (.obj
      [("InputName", optStr i.input_name),
       ("S3Input", .obj
         ([("S3Uri", .str i.source),
           ("LocalPath", .str i.destination),
           ("S3DataType", .str i.s3_data_type),
           ("S3InputMode", .str i.s3_input_mode),
           ("S3DownloadMode", .str i.s3_download_mode),
           ("S3DataDistributionType", .str i.s3_data_distribution_type)]
          ++ match i.s3_compression_type with
             | some c => [("S3CompressionType", .str c)]
             | none => []))])

/-- Embeds `ProcessingOutput.to_request_dict`. -/
def ProcessingOutput.to_request_dict (o : ProcessingOutput) : RVal :=
  .obj
    [("OutputName", optStr o.output_name),
     ("S3Output", .obj
       ([("S3Uri", .str o.destination),
         ("LocalPath", .str o.source),
         ("S3UploadMode", .str o.s3_upload_mode)]
        ++ match o.kms_key_id with
           | some k => [("KmsKeyId", .str k)]
           | none => []))]

/-- The fields of the `S3Input` sub-dictionary of an input request
dictionary, used to observe the serialized result. -/
def s3InputFields : RVal → List (String × RVal)
  | .obj l =>
      match l.lookup "S3Input" with
      | some (.obj f) => f
      | _ => []
  | _ => []

/-! ### External collaborators -/

/-- Modelled from the spec: the object-storage upload collaborator
`upload(local_path, destination_uri) -> remote_uri` (the implementation,
`sagemaker.s3.S3Uploader`, is code of this repository that is not under
`src/`).  Per the spec it uploads the local content to the derived remote
location and returns that remote URI. -/
def S3Uploader.upload (local_path desired_s3_uri : String) : String :=
  let _ := local_path
  desired_s3_uri

/-- An abstract local filesystem: `os.path.isdir` / `os.path.isfile` become
explicit boolean observations. -/
structure FileSystem where
  isFile : String → Bool
  isDir : String → Bool

/-- One `S3Uploader.upload(local_path, desired_s3_uri, session)` call made
during a run. -/
structure UploadCall where
  local_path : String
  desired_s3_uri : String
deriving DecidableEq, Repr

/-! ### Descriptor-list normalization

Python hands `_normalize_inputs` a heterogeneous list: any element may fail
the `isinstance` check.  `PyObj α` is such an element: either a genuine
descriptor or some foreign object. -/

/-- An element of a Python list that is expected to hold descriptors of
type `α` but may hold anything. -/
inductive PyObj (α : Type) where
  | valid : α → PyObj α
  | foreign : String → PyObj α
deriving DecidableEq, Repr

/-- The outcome of a normalization pass.  Python mutates descriptors in
place and performs uploads as it iterates, so when the `isinstance` check
raises `TypeError` the elements before the offender have already been
processed: the error case also records the descriptors mutated and the
upload calls made before the exception. -/
inductive NormOutcome (α : Type) where
  | ok : List α → List UploadCall → NormOutcome α
  | typeError : String → List α → List UploadCall → NormOutcome α
deriving DecidableEq, Repr

/-- The input name in force after the name-assignment line of the
`_normalize_inputs` loop body: the default `input-count` when the name was
absent, otherwise the existing name. -/
def assignedInputName (count : Nat) (i : ProcessingInput) : String :=
  match i.input_name with
  | none => "input-" ++ toString count
  | some n => n

/-- The output name in force after the name-assignment line of the
`_normalize_outputs` loop body. -/
def assignedOutputName (count : Nat) (o : ProcessingOutput) : String :=
  match o.output_name with
  | none => "output-" ++ toString count
  | some n => n

/-- Embeds one iteration of the `_normalize_inputs` loop body on a genuine
`ProcessingInput` (`count` is the 1-based position): assign the default
name `input-count` when the name is absent, and when the source has no `s3`
scheme upload it to
`os.path.join("s3://", bucket, job_name, "input", input_name)` and replace
the source with the returned URI.  Returns the mutated descriptor and the
upload calls made. -/
def normalizeInputStep (bucket jobName : String) (count : Nat)
    (i : ProcessingInput) : ProcessingInput × List UploadCall :=
  let i1 := { i with input_name := some (assignedInputName count i) }
  if urlScheme i1.source = "s3" then (i1, [])
  else
    let desired := osPathJoin
      ["s3://", bucket, jobName, "input", assignedInputName count i]
    ({ i1 with source := S3Uploader.upload i1.source desired },
     [⟨i1.source, desired⟩])

/-- Embeds one iteration of the `_normalize_outputs` loop body on a genuine
`ProcessingOutput`: assign the default name `output-count` when the name is
absent, and when the destination has no `s3` scheme replace it with
`os.path.join("s3://", bucket, job_name, "output")` (no upload is made for
outputs). -/
def normalizeOutputStep (bucket jobName : String) (count : Nat)
    (o : ProcessingOutput) : ProcessingOutput :=
  let o1 := { o with output_name := some (assignedOutputName count o) }
  if urlScheme o1.destination = "s3" then o1
  else { o1 with destination := osPathJoin ["s3://", bucket, jobName, "output"] }

/-- The `_normalize_inputs` loop from position `count` on: each genuine
element goes through `normalizeInputStep`; a foreign element raises
`TypeError`, keeping the effects of the elements already processed. -/
def normalizeInputsFrom (bucket jobName : String) :
    Nat → List (PyObj ProcessingInput) → NormOutcome ProcessingInput
  | _, [] => .ok [] []
  | _, .foreign _ :: _ =>
      .typeError "Your inputs must be provided as ProcessingInput objects." [] []
  | count, .valid i :: rest =>
      let p := normalizeInputStep bucket jobName count i
      match normalizeInputsFrom bucket jobName (count + 1) rest with
      | .ok l u => .ok (p.1 :: l) (p.2 ++ u)
      | .typeError m l u => .typeError m (p.1 :: l) (p.2 ++ u)

/-- The `_normalize_outputs` loop from position `count` on. -/
def normalizeOutputsFrom (bucket jobName : String) :
    Nat → List (PyObj ProcessingOutput) → NormOutcome ProcessingOutput
  | _, [] => .ok [] []
  | _, .foreign _ :: _ =>
      .typeError "Your outputs must be provided as ProcessingOutput objects." [] []
  | count, .valid o :: rest =>
      let o1 := normalizeOutputStep bucket jobName count o
      match normalizeOutputsFrom bucket jobName (count + 1) rest with
      | .ok l u => .ok (o1 :: l) u
      | .typeError m l u => .typeError m (o1 :: l) u

/-- Embeds `Processor._normalize_inputs`: `None` yields the empty list,
otherwise the loop runs with `enumerate(inputs, 1)`. -/
def _normalize_inputs (bucket jobName : String)
    (inputs : Option (List (PyObj ProcessingInput))) : NormOutcome ProcessingInput :=
  match inputs with
  | none => .ok [] []
  | some l => normalizeInputsFrom bucket jobName 1 l

/-- Embeds `Processor._normalize_outputs`: `None` yields the empty list,
otherwise the loop runs with `enumerate(outputs, 1)`. -/
def _normalize_outputs (bucket jobName : String)
    (outputs : Option (List (PyObj ProcessingOutput))) : NormOutcome ProcessingOutput :=
  match outputs with
  | none => .ok [] []
  | some l => normalizeOutputsFrom bucket jobName 1 l

/-! ### Run traces

A run is a sequence of observable effects (job-name generation, uploads,
the remote `process` submission, waiting) ending either normally or in a
raised exception; the events recorded before a raise are exactly the
effects Python had already performed when the exception fired. -/

/-- One observable effect of `run`. -/
inductive RunEvent where
  | generateJobName : String → RunEvent
  | uploadCall : UploadCall → RunEvent
  | setEntrypoint : List String → RunEvent
  | processCall : List RVal → List RVal → String →
      Option (List String) → Option (List String) → RunEvent
  | waitForJob : Bool → RunEvent

/-- The result of a `run` call: completed with its effect trace, or an
exception raised after the recorded effects. -/
inductive RunOutcome where
  | raised : PyError → List RunEvent → RunOutcome
  | completed : List RunEvent → RunOutcome

/-- Serialization of the normalized inputs inside `ProcessingJob.start_new`
(the Python list comprehension `[input.to_request_dict() for input in
inputs]`, which propagates the first `ValueError`). -/
def serializeInputs : List ProcessingInput → Except PyError (List RVal)
  | [] => .ok []
  | i :: rest =>
      match i.to_request_dict with
      | .error e => .error e
      | .ok d =>
          match serializeInputs rest with
          | .error e => .error e
          | .ok ds => .ok (d :: ds)

/-- Embeds `Processor.run`.  `generatedName` stands for the job name that
`_generate_current_job_name` would produce from the base name and the
current timestamp (its helpers live outside this module); `entrypoint` is
the `self.entrypoint` field at call time.  The body follows the source
order: the `logs`/`wait` guard first, then job-name generation, input then
output normalization, then the submission via `ProcessingJob.start_new`,
then the optional wait. -/
def Processor.run (bucket generatedName : String) (entrypoint : Option (List String))
    (inputs : Option (List (PyObj ProcessingInput)))
    (outputs : Option (List (PyObj ProcessingOutput)))
    (arguments : Option (List String)) (wait logs : Bool)
    (job_name : Option String) : RunOutcome :=
  if logs ∧ ¬wait then
    .raised (.valueError "Logs can only be shown if wait is set to True. Please either set wait to True or set logs to False.") []
  else
    let jobName := match job_name with
      | some n => n
      | none => generatedName
    let ev0 := [RunEvent.generateJobName jobName]
    match _normalize_inputs bucket jobName inputs with
    | .typeError m _ u => .raised (.typeError m) (ev0 ++ u.map .uploadCall)
    | .ok nin uin =>
        match _normalize_outputs bucket jobName outputs with
        | .typeError m _ _ => .raised (.typeError m) (ev0 ++ uin.map .uploadCall)
        | .ok nout _ =>
            match serializeInputs nin with
            | .error e => .raised e (ev0 ++ uin.map .uploadCall)
            | .ok rin =>
                .completed (ev0 ++ uin.map .uploadCall ++
                  [.processCall rin (nout.map ProcessingOutput.to_request_dict)
                    jobName arguments entrypoint] ++
                  if wait then [.waitForJob logs] else [])

/-! ### ScriptProcessor -/

/-- The container path under which code is mounted
(`self._CODE_CONTAINER_BASE_PATH`). -/
def _CODE_CONTAINER_BASE_PATH : String := "/input/"

/-- The name of the code input channel
(`self._CODE_CONTAINER_INPUT_NAME`). -/
def _CODE_CONTAINER_INPUT_NAME : String := "code"

/-- Embeds `ScriptProcessor._get_customer_script_name`: the cascade of
checks in source order over the abstract filesystem and the URL scheme of
`code`. -/
def _get_customer_script_name (fs : FileSystem) (code : String)
    (script_name : Option String) : Except PyError String :=
  if fs.isDir code ∧ script_name = none then
    .error (.valueError "You provided a directory without providing a script name. Please provide a script name inside the directory that you specified.")
  else if (urlScheme code = "s3" ∨ fs.isDir code) ∧ script_name ≠ none then
    .ok (script_name.getD "")
  else if urlScheme code = "s3" ∨ fs.isFile code then
    .ok (osPathBasename code)
  else
    .error (.valueError "The file or directory you specified does not exist.")

/-- Embeds `ScriptProcessor._upload_code`: uploads `code` to
`os.path.join("s3://", bucket, job_name, "input", "code")`, returning the
resulting URI and the upload call made. -/
def _upload_code (bucket jobName : String) (code : String) : String × UploadCall :=
  let desired := osPathJoin
    ["s3://", bucket, jobName, "input", _CODE_CONTAINER_INPUT_NAME]
  (S3Uploader.upload code desired, ⟨code, desired⟩)

/-- Embeds `ScriptProcessor._convert_code_and_add_to_inputs`: builds the
code `ProcessingInput` and evaluates `inputs + [code_file_input]`.  When
`inputs` is Python `None` the `+` raises `TypeError` (`NoneType` does not
support concatenation with a list). -/
def _convert_code_and_add_to_inputs
    (inputs : Option (List (PyObj ProcessingInput))) (s3_uri : String) :
    Except PyError (List (PyObj ProcessingInput)) :=
  let code_file_input : ProcessingInput :=
    { source := s3_uri,
      destination := osPathJoin [_CODE_CONTAINER_BASE_PATH, _CODE_CONTAINER_INPUT_NAME],
      input_name := some _CODE_CONTAINER_INPUT_NAME }
  match inputs with
  | none => .error (.typeError "unsupported operand type(s) for +: NoneType and list")
  | some l => .ok (l ++ [.valid code_file_input])

/-- Embeds `ScriptProcessor._set_entrypoint`: the new `self.entrypoint` is
`command + [os.path.join("/input/", "code", customer_script_name)]`. -/
def _set_entrypoint (command : List String) (customer_script_name : String) :
    List String :=
  command ++ [osPathJoin
    [_CODE_CONTAINER_BASE_PATH, _CODE_CONTAINER_INPUT_NAME, customer_script_name]]

/-- Embeds `ScriptProcessor.run` in source order: generate the job name,
resolve the customer script name, upload the code, append the code input to
`inputs`, set the entrypoint, then delegate to `Processor.run`. -/
def ScriptProcessor.run (fs : FileSystem) (bucket generatedName : String)
    (command : List String) (code : String) (script_name : Option String)
    (inputs : Option (List (PyObj ProcessingInput)))
    (outputs : Option (List (PyObj ProcessingOutput)))
    (arguments : Option (List String)) (wait logs : Bool)
    (job_name : Option String) : RunOutcome :=
  let jobName := match job_name with
    | some n => n
    | none => generatedName
  match _get_customer_script_name fs code script_name with
  | .error e => .raised e [.generateJobName jobName]
  | .ok sname =>
      let (code_s3_uri, up) := _upload_code bucket jobName code
      match _convert_code_and_add_to_inputs inputs code_s3_uri with
      | .error e => .raised e [.generateJobName jobName, .uploadCall up]
      | .ok inputs_with_code =>
          let entry := _set_entrypoint command sname
          let ev0 := [RunEvent.generateJobName jobName, .uploadCall up,
            .setEntrypoint entry]
          match Processor.run bucket generatedName (some entry)
              (some inputs_with_code) outputs arguments wait logs job_name with
          | .raised e evs => .raised e (ev0 ++ evs)
          | .completed evs => .completed (ev0 ++ evs)

/-- The list of mutated descriptors produced by a `_normalize_inputs` run
over genuine inputs, starting at position `count`. -/
def normalizedInputs (bucket jobName : String) :
    Nat → List ProcessingInput → List ProcessingInput
  | _, [] => []
  | c, i :: rest =>
      (normalizeInputStep bucket jobName c i).1 ::
        normalizedInputs bucket jobName (c + 1) rest

/-- The upload calls made by a `_normalize_inputs` run over genuine inputs,
starting at position `count`. -/
def inputUploads (bucket jobName : String) :
    Nat → List ProcessingInput → List UploadCall
  | _, [] => []
  | c, i :: rest =>
      (normalizeInputStep bucket jobName c i).2 ++
        inputUploads bucket jobName (c + 1) rest

/-- The list of mutated descriptors produced by a `_normalize_outputs` run
over genuine outputs, starting at position `count`. -/
def normalizedOutputs (bucket jobName : String) :
    Nat → List ProcessingOutput → List ProcessingOutput
  | _, [] => []
  | c, o :: rest =>
      normalizeOutputStep bucket jobName c o ::
        normalizedOutputs bucket jobName (c + 1) rest

/-! ### String and path lemmas -/

theorem strAppend_assoc (a b c : String) : a ++ b ++ c = a ++ (b ++ c) := by
  apply String.ext
  simp [String.data_append]

theorem append_ne_empty_of_left (a b : String) (ha : a ≠ "") : a ++ b ≠ "" := by
  intro h
  apply ha
  have hd : (a ++ b).data = ("" : String).data := by rw [h]
  rw [String.data_append] at hd
  exact String.ext (List.append_eq_nil.mp hd).1

theorem endsWithSlash_append (a b : String) (hb : b ≠ "") :
    endsWithSlash (a ++ b) = endsWithSlash b := by
  have hb2 : b.data ≠ [] := fun h => hb (String.ext h)
  unfold endsWithSlash
  rw [String.data_append, List.getLast?_append_of_ne_nil _ hb2]

theorem startsWithSlash_osPathBasename (s : String) :
    startsWithSlash (osPathBasename s) = false := by
  show (match ((s.data.reverse.takeWhile fun c => c ≠ '/').reverse : List Char) with
    | [] => false
    | c :: _ => decide (c = '/')) = false
  cases hrev : (s.data.reverse.takeWhile fun c => c ≠ '/').reverse with
  | nil => rfl
  | cons c rest =>
      have hc : c ∈ s.data.reverse.takeWhile fun c => c ≠ '/' := by
        rw [← List.mem_reverse, hrev]
        exact List.mem_cons_self _ _
      have := List.mem_takeWhile_imp hc
      simpa using this

theorem osPathJoin2_after_sep (a b : String) (ha : endsWithSlash a = true)
    (hb : startsWithSlash b = false) : osPathJoin2 a b = a ++ b := by
  unfold osPathJoin2
  rw [if_neg (by simp [hb]), if_pos (Or.inr ha)]

theorem osPathJoin2_sep (a b : String) (ha : a ≠ "") (hae : endsWithSlash a = false)
    (hb : startsWithSlash b = false) : osPathJoin2 a b = a ++ "/" ++ b := by
  unfold osPathJoin2
  rw [if_neg (by simp [hb]), if_neg]
  intro h
  rcases h with h | h
  · exact ha h
  · rw [hae] at h
    exact Bool.noConfusion h

theorem osPathJoin_s3_input (b j n : String)
    (hb : b ≠ "") (hbs : startsWithSlash b = false) (hbe : endsWithSlash b = false)
    (hj : j ≠ "") (hjs : startsWithSlash j = false) (hje : endsWithSlash j = false)
    (hns : startsWithSlash n = false) :
    osPathJoin ["s3://", b, j, "input", n] =
      "s3://" ++ b ++ "/" ++ j ++ "/input/" ++ n := by
  have e1 : osPathJoin2 "s3://" b = "s3://" ++ b :=
    osPathJoin2_after_sep _ _ (by decide) hbs
  have n1 : "s3://" ++ b ≠ "" := append_ne_empty_of_left _ _ (by decide)
  have s1 : endsWithSlash ("s3://" ++ b) = false :=
    (endsWithSlash_append _ _ hb).trans hbe
  have e2 : osPathJoin2 ("s3://" ++ b) j = "s3://" ++ b ++ "/" ++ j :=
    osPathJoin2_sep _ _ n1 s1 hjs
  have n2 : "s3://" ++ b ++ "/" ++ j ≠ "" :=
    append_ne_empty_of_left _ _ (append_ne_empty_of_left _ _ n1)
  have s2 : endsWithSlash ("s3://" ++ b ++ "/" ++ j) = false :=
    (endsWithSlash_append _ _ hj).trans hje
  have e3 : osPathJoin2 ("s3://" ++ b ++ "/" ++ j) "input" =
      "s3://" ++ b ++ "/" ++ j ++ "/" ++ "input" :=
    osPathJoin2_sep _ _ n2 s2 (by decide)
  have n3 : "s3://" ++ b ++ "/" ++ j ++ "/" ++ "input" ≠ "" :=
    append_ne_empty_of_left _ _ (append_ne_empty_of_left _ _ n2)
  have s3 : endsWithSlash ("s3://" ++ b ++ "/" ++ j ++ "/" ++ "input") = false :=
    (endsWithSlash_append _ _ (by decide)).trans (by decide)
  have e4 : osPathJoin2 ("s3://" ++ b ++ "/" ++ j ++ "/" ++ "input") n =
      "s3://" ++ b ++ "/" ++ j ++ "/" ++ "input" ++ "/" ++ n :=
    osPathJoin2_sep _ _ n3 s3 hns
  have efold : osPathJoin ["s3://", b, j, "input", n] =
      osPathJoin2 (osPathJoin2 (osPathJoin2 (osPathJoin2 "s3://" b) j) "input") n := rfl
  rw [efold, e1, e2, e3, e4]
  rw [strAppend_assoc ("s3://" ++ b ++ "/" ++ j) "/" "input",
    strAppend_assoc ("s3://" ++ b ++ "/" ++ j) ("/" ++ "input") "/"]
  rw [show ("/" ++ "input" ++ "/" : String) = "/input/" from by decide]

theorem osPathJoin_s3_output (b j : String)
    (hb : b ≠ "") (hbs : startsWithSlash b = false) (hbe : endsWithSlash b = false)
    (hj : j ≠ "") (hjs : startsWithSlash j = false) (hje : endsWithSlash j = false) :
    osPathJoin ["s3://", b, j, "output"] = "s3://" ++ b ++ "/" ++ j ++ "/output" := by
  have e1 : osPathJoin2 "s3://" b = "s3://" ++ b :=
    osPathJoin2_after_sep _ _ (by decide) hbs
  have n1 : "s3://" ++ b ≠ "" := append_ne_empty_of_left _ _ (by decide)
  have s1 : endsWithSlash ("s3://" ++ b) = false :=
    (endsWithSlash_append _ _ hb).trans hbe
  have e2 : osPathJoin2 ("s3://" ++ b) j = "s3://" ++ b ++ "/" ++ j :=
    osPathJoin2_sep _ _ n1 s1 hjs
  have n2 : "s3://" ++ b ++ "/" ++ j ≠ "" :=
    append_ne_empty_of_left _ _ (append_ne_empty_of_left _ _ n1)
  have s2 : endsWithSlash ("s3://" ++ b ++ "/" ++ j) = false :=
    (endsWithSlash_append _ _ hj).trans hje
  have e3 : osPathJoin2 ("s3://" ++ b ++ "/" ++ j) "output" =
      "s3://" ++ b ++ "/" ++ j ++ "/" ++ "output" :=
    osPathJoin2_sep _ _ n2 s2 (by decide)
  have efold : osPathJoin ["s3://", b, j, "output"] =
      osPathJoin2 (osPathJoin2 (osPathJoin2 "s3://" b) j) "output" := rfl
  rw [efold, e1, e2, e3,
    strAppend_assoc ("s3://" ++ b ++ "/" ++ j) "/" "output",
    show ("/" ++ "output" : String) = "/output" from by decide]

theorem osPathJoin_code_path (n : String) (hn : startsWithSlash n = false) :
    osPathJoin [_CODE_CONTAINER_BASE_PATH, _CODE_CONTAINER_INPUT_NAME, n] =
      "/input/code/" ++ n := by
  have e1 : osPathJoin2 "/input/" "code" = "/input/code" := by decide
  have e2 : osPathJoin2 "/input/code" n = "/input/code" ++ "/" ++ n :=
    osPathJoin2_sep _ _ (by decide) (by decide) hn
  have efold : osPathJoin [_CODE_CONTAINER_BASE_PATH, _CODE_CONTAINER_INPUT_NAME, n] =
      osPathJoin2 (osPathJoin2 "/input/" "code") n := rfl
  rw [efold, e1, e2, show ("/input/code" ++ "/" : String) = "/input/code/" from by decide]

/-! ### Normalization lemmas -/

theorem normalizeInputStep_name (b j : String) (c : Nat) (i : ProcessingInput) :
    ((normalizeInputStep b j c i).1).input_name = some (assignedInputName c i) := by
  by_cases h : urlScheme i.source = "s3" <;> simp [normalizeInputStep, h]

theorem normalizeInputStep_frame (b j : String) (c : Nat) (i : ProcessingInput) :
    ((normalizeInputStep b j c i).1).destination = i.destination ∧
    ((normalizeInputStep b j c i).1).s3_data_type = i.s3_data_type ∧
    ((normalizeInputStep b j c i).1).s3_input_mode = i.s3_input_mode ∧
    ((normalizeInputStep b j c i).1).s3_download_mode = i.s3_download_mode ∧
    ((normalizeInputStep b j c i).1).s3_data_distribution_type = i.s3_data_distribution_type ∧
    ((normalizeInputStep b j c i).1).s3_compression_type = i.s3_compression_type := by
  by_cases h : urlScheme i.source = "s3" <;> simp [normalizeInputStep, h]

theorem normalizeInputStep_local (b j : String) (c : Nat) (i : ProcessingInput)
    (hs : urlScheme i.source ≠ "s3") :
    ((normalizeInputStep b j c i).1).source =
      osPathJoin ["s3://", b, j, "input", assignedInputName c i] ∧
    (normalizeInputStep b j c i).2 =
      [⟨i.source, osPathJoin ["s3://", b, j, "input", assignedInputName c i]⟩] := by
  simp [normalizeInputStep, hs, S3Uploader.upload]

theorem normalizeOutputStep_name (b j : String) (c : Nat) (o : ProcessingOutput) :
    (normalizeOutputStep b j c o).output_name = some (assignedOutputName c o) := by
  by_cases h : urlScheme o.destination = "s3" <;> simp [normalizeOutputStep, h]

theorem normalizeOutputStep_frame (b j : String) (c : Nat) (o : ProcessingOutput) :
    (normalizeOutputStep b j c o).source = o.source ∧
    (normalizeOutputStep b j c o).kms_key_id = o.kms_key_id ∧
    (normalizeOutputStep b j c o).s3_upload_mode = o.s3_upload_mode := by
  by_cases h : urlScheme o.destination = "s3" <;> simp [normalizeOutputStep, h]

theorem normalizeOutputStep_local (b j : String) (c : Nat) (o : ProcessingOutput)
    (hs : urlScheme o.destination ≠ "s3") :
    (normalizeOutputStep b j c o).destination = osPathJoin ["s3://", b, j, "output"] := by
  simp [normalizeOutputStep, hs]

theorem normalizeInputsFrom_map_valid (b j : String) :
    ∀ (c : Nat) (l : List ProcessingInput),
      normalizeInputsFrom b j c (l.map PyObj.valid) =
        .ok (normalizedInputs b j c l) (inputUploads b j c l) := by
  intro c l
  induction l generalizing c with
  | nil => rfl
  | cons i rest ih =>
      show normalizeInputsFrom b j c (PyObj.valid i :: rest.map PyObj.valid) = _
      rw [normalizeInputsFrom, ih (c + 1)]
      rfl

theorem normalizeOutputsFrom_map_valid (b j : String) :
    ∀ (c : Nat) (l : List ProcessingOutput),
      normalizeOutputsFrom b j c (l.map PyObj.valid) =
        .ok (normalizedOutputs b j c l) [] := by
  intro c l
  induction l generalizing c with
  | nil => rfl
  | cons o rest ih =>
      show normalizeOutputsFrom b j c (PyObj.valid o :: rest.map PyObj.valid) = _
      rw [normalizeOutputsFrom, ih (c + 1)]
      rfl

theorem normalizedInputs_length (b j : String) :
    ∀ (c : Nat) (l : List ProcessingInput),
      (normalizedInputs b j c l).length = l.length := by
  intro c l
  induction l generalizing c with
  | nil => rfl
  | cons i rest ih => simp [normalizedInputs, ih]

theorem normalizedOutputs_length (b j : String) :
    ∀ (c : Nat) (l : List ProcessingOutput),
      (normalizedOutputs b j c l).length = l.length := by
  intro c l
  induction l generalizing c with
  | nil => rfl
  | cons o rest ih => simp [normalizedOutputs, ih]

theorem normalizedInputs_get (b j : String) :
    ∀ (c : Nat) (l : List ProcessingInput) (k : Nat) (hk : k < l.length)
      (hk2 : k < (normalizedInputs b j c l).length),
      (normalizedInputs b j c l).get ⟨k, hk2⟩ =
        (normalizeInputStep b j (c + k) (l.get ⟨k, hk⟩)).1 := by
  intro c l
  induction l generalizing c with
  | nil => intro k hk hk2; exact absurd hk (Nat.not_lt_zero k)
  | cons i rest ih =>
      intro k hk hk2
      cases k with
      | zero => rfl
      | succ k =>
          have hk3 : k < (normalizedInputs b j (c + 1) rest).length := by
            rw [normalizedInputs_length]
            exact Nat.lt_of_succ_lt_succ hk
          have := ih (c + 1) k (Nat.lt_of_succ_lt_succ hk) hk3
          show (normalizedInputs b j (c + 1) rest).get ⟨k, _⟩ = _
          rw [this]
          have harith : c + 1 + k = c + (k + 1) := by omega
          rw [harith]
          rfl

theorem normalizedOutputs_get (b j : String) :
    ∀ (c : Nat) (l : List ProcessingOutput) (k : Nat) (hk : k < l.length)
      (hk2 : k < (normalizedOutputs b j c l).length),
      (normalizedOutputs b j c l).get ⟨k, hk2⟩ =
        normalizeOutputStep b j (c + k) (l.get ⟨k, hk⟩) := by
  intro c l
  induction l generalizing c with
  | nil => intro k hk hk2; exact absurd hk (Nat.not_lt_zero k)
  | cons o rest ih =>
      intro k hk hk2
      cases k with
      | zero => rfl
      | succ k =>
          have hk3 : k < (normalizedOutputs b j (c + 1) rest).length := by
            rw [normalizedOutputs_length]
            exact Nat.lt_of_succ_lt_succ hk
          have := ih (c + 1) k (Nat.lt_of_succ_lt_succ hk) hk3
          show (normalizedOutputs b j (c + 1) rest).get ⟨k, _⟩ = _
          rw [this]
          have harith : c + 1 + k = c + (k + 1) := by omega
          rw [harith]
          rfl

theorem inputUploads_mem (b j : String) :
    ∀ (c : Nat) (l : List ProcessingInput) (k : Nat) (hk : k < l.length)
      (x : UploadCall), x ∈ (normalizeInputStep b j (c + k) (l.get ⟨k, hk⟩)).2 →
      x ∈ inputUploads b j c l := by
  intro c l
  induction l generalizing c with
  | nil => intro k hk; exact absurd hk (Nat.not_lt_zero k)
  | cons i rest ih =>
      intro k hk x hx
      cases k with
      | zero =>
          exact List.mem_append_left _ hx
      | succ k =>
          apply List.mem_append_right
          apply ih (c + 1) k (Nat.lt_of_succ_lt_succ hk) x
          have harith : c + 1 + k = c + (k + 1) := by omega
          rw [harith]
          exact hx

theorem normalizeInputsFrom_foreign (b j : String) :
    ∀ (c : Nat) (l : List ProcessingInput) (reason : String)
      (post : List (PyObj ProcessingInput)),
      normalizeInputsFrom b j c (l.map PyObj.valid ++ PyObj.foreign reason :: post) =
        .typeError "Your inputs must be provided as ProcessingInput objects."
          (normalizedInputs b j c l) (inputUploads b j c l) := by
  intro c l
  induction l generalizing c with
  | nil => intro reason post; rfl
  | cons i rest ih =>
      intro reason post
      show normalizeInputsFrom b j c
        (PyObj.valid i :: (rest.map PyObj.valid ++ PyObj.foreign reason :: post)) = _
      rw [normalizeInputsFrom, ih (c + 1)]
      rfl

theorem normalizeOutputsFrom_foreign (b j : String) :
    ∀ (c : Nat) (l : List ProcessingOutput) (reason : String)
      (post : List (PyObj ProcessingOutput)),
      normalizeOutputsFrom b j c (l.map PyObj.valid ++ PyObj.foreign reason :: post) =
        .typeError "Your outputs must be provided as ProcessingOutput objects."
          (normalizedOutputs b j c l) [] := by
  intro c l
  induction l generalizing c with
  | nil => intro reason post; rfl
  | cons o rest ih =>
      intro reason post
      show normalizeOutputsFrom b j c
        (PyObj.valid o :: (rest.map PyObj.valid ++ PyObj.foreign reason :: post)) = _
      rw [normalizeOutputsFrom, ih (c + 1)]
      rfl

/-! ### Claims -/

/-- C3: `ProcessingInput.to_request_dict` raises a `ValueError` if and only
if `s3_compression_type` equals `"Gzip"` while `s3_input_mode` is not
`"Pipe"`; in every other case a request dictionary is returned. -/
theorem C3_gzip_requires_pipe (i : ProcessingInput) :
    ((∃ m, i.to_request_dict = .error (.valueError m)) ↔
      i.s3_compression_type = some "Gzip" ∧ i.s3_input_mode ≠ "Pipe") ∧
    (¬(i.s3_compression_type = some "Gzip" ∧ i.s3_input_mode ≠ "Pipe") →
      ∃ d, i.to_request_dict = .ok d) := by
  unfold ProcessingInput.to_request_dict
  by_cases h : i.s3_compression_type = some "Gzip" ∧ i.s3_input_mode ≠ "Pipe"
  · rw [if_pos h]
    exact ⟨⟨fun _ => h, fun _ => ⟨_, rfl⟩⟩, fun hn => absurd h hn⟩
  · rw [if_neg h]
    exact ⟨⟨fun hm => absurd hm (fun ⟨_, hm⟩ => Except.noConfusion hm),
      fun hh => absurd hh h⟩, fun _ => ⟨_, rfl⟩⟩

/-- C3 witness: a default-compression `File`-mode input serializes without
error. -/
theorem C3_gzip_requires_pipe_witness :
    ∃ d, (ProcessingInput.mk "s3://bucket/data" "/opt/ml" none "ManifestFile"
      "File" "Continuous" "FullyReplicated" (some "None")).to_request_dict =
        Except.ok d :=
  (C3_gzip_requires_pipe _).2 (by decide)

/-- C9: whenever `to_request_dict` returns a dictionary, the `S3Input`
sub-dictionary carries the key `S3CompressionType` exactly when
`s3_compression_type` is a string (including the default string `"None"`),
with that string as value; the key is absent only for Python `None`. -/
theorem C9_compression_string_serialized (i : ProcessingInput) (d : RVal)
    (h : i.to_request_dict = .ok d) :
    (s3InputFields d).lookup "S3CompressionType" = i.s3_compression_type.map RVal.str := by
  unfold ProcessingInput.to_request_dict at h
  by_cases hg : i.s3_compression_type = some "Gzip" ∧ i.s3_input_mode ≠ "Pipe"
  · rw [if_pos hg] at h
    exact Except.noConfusion h
  · rw [if_neg hg] at h
    injection h with h
    subst h
    cases i.s3_compression_type with
    | none => rfl
    | some c => rfl

/-- C9 witness: the default input (compression the string `"None"`) carries
`S3CompressionType = "None"` in its request dictionary. -/
theorem C9_compression_string_serialized_witness :
    (s3InputFields (RVal.obj
      [("InputName", RVal.null),
       ("S3Input", RVal.obj
         [("S3Uri", RVal.str "/data"),
          ("LocalPath", RVal.str "/opt/ml"),
          ("S3DataType", RVal.str "ManifestFile"),
          ("S3InputMode", RVal.str "File"),
          ("S3DownloadMode", RVal.str "Continuous"),
          ("S3DataDistributionType", RVal.str "FullyReplicated"),
          ("S3CompressionType", RVal.str "None")])])).lookup "S3CompressionType" =
      Option.map RVal.str (some "None") :=
  C9_compression_string_serialized
    (ProcessingInput.mk "/data" "/opt/ml" none "ManifestFile" "File" "Continuous"
      "FullyReplicated" (some "None")) _ rfl

/-- C4: for an existing local code file (not a directory, not an `s3` URI)
the resolved script name is the basename of the code path, and the derived
entrypoint is the command list with the container-local script path
appended; in particular `script.py` with `["python3"]` yields
`["python3", "/input/code/script.py"]`. -/
theorem C4_entrypoint_composition (fs : FileSystem) (code : String)
    (command : List String) (hf : fs.isFile code = true)
    (hd : fs.isDir code = false) (hs : urlScheme code ≠ "s3") :
    _get_customer_script_name fs code none = .ok (osPathBasename code) ∧
    _set_entrypoint command (osPathBasename code) =
      command ++ ["/input/code/" ++ osPathBasename code] ∧
    _set_entrypoint ["python3"] "script.py" = ["python3", "/input/code/script.py"] := by
  refine ⟨?_, ?_, by decide⟩
  · unfold _get_customer_script_name
    split_ifs with h1 h2 h3
    · exact absurd h1.1 (by simp [hd])
    · exact absurd rfl h2.2
    · rfl
    · exact absurd (Or.inr hf) h3
  · unfold _set_entrypoint
    rw [osPathJoin_code_path _ (startsWithSlash_osPathBasename code)]

/-- C4 witness: a filesystem on which `script.py` is a file. -/
theorem C4_entrypoint_composition_witness :
    _get_customer_script_name
      ⟨fun s => s = "script.py", fun _ => false⟩ "script.py" none =
      .ok (osPathBasename "script.py") ∧
    _set_entrypoint ["python3"] (osPathBasename "script.py") =
      ["python3"] ++ ["/input/code/" ++ osPathBasename "script.py"] ∧
    _set_entrypoint ["python3"] "script.py" = ["python3", "/input/code/script.py"] :=
  C4_entrypoint_composition ⟨fun s => s = "script.py", fun _ => false⟩
    "script.py" ["python3"] (by decide) (by decide) (by decide)

/-- C6: `Processor.run` with `wait = False` and `logs = True` raises a
`ValueError` with an empty effect trace: no job name is generated, no
normalization or upload happens, and the remote process call is never
made — for every combination of inputs, outputs and arguments. -/
theorem C6_logs_require_wait (bucket generatedName : String)
    (entrypoint : Option (List String))
    (inputs : Option (List (PyObj ProcessingInput)))
    (outputs : Option (List (PyObj ProcessingOutput)))
    (arguments : Option (List String)) (job_name : Option String) :
    Processor.run bucket generatedName entrypoint inputs outputs arguments
        false true job_name =
      .raised (.valueError "Logs can only be shown if wait is set to True. Please either set wait to True or set logs to False.") [] := by
  unfold Processor.run
  rw [if_pos ⟨rfl, fun h => Bool.noConfusion h⟩]

/-- C5: script-name resolution: a directory without a script name is a
`ValueError`; an explicit script name is returned for an `s3` URI or a
directory; otherwise an `s3` URI or an existing file resolves to the
basename of the code path; anything else is a `ValueError`. -/
theorem C5_script_name_resolution (fs : FileSystem) (code : String) :
    (fs.isDir code = true → _get_customer_script_name fs code none =
      .error (.valueError "You provided a directory without providing a script name. Please provide a script name inside the directory that you specified.")) ∧
    (∀ s, (urlScheme code = "s3" ∨ fs.isDir code = true) →
      _get_customer_script_name fs code (some s) = .ok s) ∧
    (∀ sn, ¬(fs.isDir code = true ∧ sn = none) →
      ¬((urlScheme code = "s3" ∨ fs.isDir code = true) ∧ sn ≠ none) →
      (urlScheme code = "s3" ∨ fs.isFile code = true) →
      _get_customer_script_name fs code sn = .ok (osPathBasename code)) ∧
    (fs.isFile code = false → fs.isDir code = false → urlScheme code ≠ "s3" →
      ∀ sn, _get_customer_script_name fs code sn =
        .error (.valueError "The file or directory you specified does not exist.")) := by
  refine ⟨?_, ?_, ?_, ?_⟩
  · intro h1
    unfold _get_customer_script_name
    rw [if_pos ⟨h1, rfl⟩]
  · intro s h2
    unfold _get_customer_script_name
    rw [if_neg (fun h => Option.noConfusion h.2),
      if_pos ⟨h2, fun h => Option.noConfusion h⟩]
    rfl
  · intro sn h3a h3b h3c
    unfold _get_customer_script_name
    rw [if_neg h3a, if_neg (fun h => h3b ⟨h.1, h.2⟩), if_pos h3c]
  · intro hf0 hd0 hs0 sn
    have nc1 : ¬(fs.isDir code = true ∧ sn = none) := fun h => by
      rw [hd0] at h
      exact Bool.noConfusion h.1
    have nc2 : ¬((urlScheme code = "s3" ∨ fs.isDir code = true) ∧ sn ≠ none) :=
      fun h => by
        rcases h.1 with h1 | h1
        · exact hs0 h1
        · rw [hd0] at h1
          exact Bool.noConfusion h1
    have nc3 : ¬(urlScheme code = "s3" ∨ fs.isFile code = true) := fun h => by
      rcases h with h1 | h1
      · exact hs0 h1
      · rw [hf0] at h1
        exact Bool.noConfusion h1
    unfold _get_customer_script_name
    rw [if_neg nc1, if_neg nc2, if_neg nc3]

/-- C5 witness: the four resolution cases at concrete inputs. -/
theorem C5_script_name_resolution_witness :
    _get_customer_script_name ⟨fun s => s = "script.py", fun s => s = "mydir"⟩
      "mydir" none =
      .error (.valueError "You provided a directory without providing a script name. Please provide a script name inside the directory that you specified.") ∧
    _get_customer_script_name ⟨fun s => s = "script.py", fun s => s = "mydir"⟩
      "mydir" (some "run.py") = .ok "run.py" ∧
    _get_customer_script_name ⟨fun s => s = "script.py", fun s => s = "mydir"⟩
      "script.py" none = .ok (osPathBasename "script.py") ∧
    _get_customer_script_name ⟨fun s => s = "script.py", fun s => s = "mydir"⟩
      "absent.py" none =
      .error (.valueError "The file or directory you specified does not exist.") :=
  ⟨(C5_script_name_resolution _ "mydir").1 (by decide),
   (C5_script_name_resolution _ "mydir").2.1 "run.py" (Or.inr (by decide)),
   (C5_script_name_resolution _ "script.py").2.2.1 none (by decide) (by decide)
     (Or.inr (by decide)),
   (C5_script_name_resolution _ "absent.py").2.2.2 (by decide) (by decide)
     (by decide) none⟩

/-- C7: a non-descriptor element makes `_normalize_inputs` /
`_normalize_outputs` raise `TypeError`, and the descriptors mutated and the
uploads performed are exactly those of the elements before the offender —
the result does not depend on the elements after it. -/
theorem C7_type_error_stops_processing (bucket jobName : String) :
    (∀ (pre : List ProcessingInput) (reason : String)
       (post : List (PyObj ProcessingInput)) (r : List ProcessingInput)
       (u : List UploadCall),
       _normalize_inputs bucket jobName (some (pre.map PyObj.valid)) = .ok r u →
       _normalize_inputs bucket jobName
           (some (pre.map PyObj.valid ++ PyObj.foreign reason :: post)) =
         .typeError "Your inputs must be provided as ProcessingInput objects." r u) ∧
    (∀ (pre : List ProcessingOutput) (reason : String)
       (post : List (PyObj ProcessingOutput)) (r : List ProcessingOutput)
       (u : List UploadCall),
       _normalize_outputs bucket jobName (some (pre.map PyObj.valid)) = .ok r u →
       _normalize_outputs bucket jobName
           (some (pre.map PyObj.valid ++ PyObj.foreign reason :: post)) =
         .typeError "Your outputs must be provided as ProcessingOutput objects." r u) := by
  constructor
  · intro pre reason post r u h
    simp only [_normalize_inputs] at h ⊢
    rw [normalizeInputsFrom_map_valid] at h
    injection h with h1 h2
    rw [normalizeInputsFrom_foreign, h1, h2]
  · intro pre reason post r u h
    simp only [_normalize_outputs] at h ⊢
    rw [normalizeOutputsFrom_map_valid] at h
    injection h with h1 h2
    rw [normalizeOutputsFrom_foreign, h1, h2]

/-- C7 witness: a foreign object after one genuine input (resp. output)
yields the `TypeError` outcome carrying only the first element, for any
tail. -/
theorem C7_type_error_stops_processing_witness :
    _normalize_inputs "bucket" "job" (some
        ([ProcessingInput.mk "s3://b/d" "/opt" none "ManifestFile" "File"
            "Continuous" "FullyReplicated" (some "None")].map PyObj.valid ++
          PyObj.foreign "a string" ::
            [PyObj.valid (ProcessingInput.mk "s3://b/e" "/opt2" none
              "ManifestFile" "File" "Continuous" "FullyReplicated" (some "None"))])) =
      .typeError "Your inputs must be provided as ProcessingInput objects."
        [ProcessingInput.mk "s3://b/d" "/opt" (some "input-1") "ManifestFile"
          "File" "Continuous" "FullyReplicated" (some "None")] [] ∧
    _normalize_outputs "bucket" "job" (some
        ([ProcessingOutput.mk "/src" "s3://b/out" none none "Continuous"].map
            PyObj.valid ++ PyObj.foreign "a string" :: [])) =
      .typeError "Your outputs must be provided as ProcessingOutput objects."
        [ProcessingOutput.mk "/src" "s3://b/out" (some "output-1") none
          "Continuous"] [] :=
  ⟨(C7_type_error_stops_processing "bucket" "job").1 _ "a string" _ _ _ (by decide),
   (C7_type_error_stops_processing "bucket" "job").2 _ "a string" _ _ _ (by decide)⟩

/-- C8: `ScriptProcessor.run` with `inputs` omitted (`None`) raises a
`TypeError` when the code input is appended — after the job name was
generated and the code uploaded — because `None + [code_input]` is not
defined; appending succeeds exactly when `inputs` is an actual list. -/
theorem C8_run_without_inputs (fs : FileSystem) (bucket generatedName : String)
    (command : List String) (code : String) (script_name : Option String)
    (sname : String)
    (hres : _get_customer_script_name fs code script_name = .ok sname)
    (outputs : Option (List (PyObj ProcessingOutput)))
    (arguments : Option (List String)) (wait logs : Bool) :
    ScriptProcessor.run fs bucket generatedName command code script_name none
        outputs arguments wait logs none =
      .raised (.typeError "unsupported operand type(s) for +: NoneType and list")
        [.generateJobName generatedName,
         .uploadCall ⟨code, osPathJoin ["s3://", bucket, generatedName, "input", "code"]⟩] ∧
    (∀ (l : List (PyObj ProcessingInput)) (uri : String),
      _convert_code_and_add_to_inputs (some l) uri =
        .ok (l ++ [PyObj.valid
          { source := uri, destination := "/input/code", input_name := some "code" }])) := by
  constructor
  · unfold ScriptProcessor.run
    rw [hres]
    rfl
  · intro l uri
    unfold _convert_code_and_add_to_inputs
    rw [show osPathJoin [_CODE_CONTAINER_BASE_PATH, _CODE_CONTAINER_INPUT_NAME] =
      "/input/code" from by decide]
    rfl

/-- C8 witness: an `s3` code URI with no inputs list. -/
theorem C8_run_without_inputs_witness :
    ScriptProcessor.run ⟨fun _ => false, fun _ => false⟩ "b" "gen-job" ["python3"]
        "s3://b/code/run.py" none none none none true true none =
      .raised (.typeError "unsupported operand type(s) for +: NoneType and list")
        [.generateJobName "gen-job",
         .uploadCall ⟨"s3://b/code/run.py", "s3://b/gen-job/input/code"⟩] :=
  (C8_run_without_inputs ⟨fun _ => false, fun _ => false⟩ "b" "gen-job" ["python3"]
    "s3://b/code/run.py" none "run.py" (by decide) none none true true).1

/-- C2: after normalization every descriptor whose name was `None` has name
`input-N` (resp. `output-N`) with `N` its 1-based position, and descriptors
that already had a name keep it (`assignedInputName` / `assignedOutputName`
spell out exactly that). -/
theorem C2_default_names (bucket jobName : String) :
    (∀ (l : List ProcessingInput) (r : List ProcessingInput) (u : List UploadCall),
      _normalize_inputs bucket jobName (some (l.map PyObj.valid)) = .ok r u →
      r.length = l.length ∧
      ∀ (k : Nat) (hk : k < l.length) (hk2 : k < r.length),
        (r.get ⟨k, hk2⟩).input_name =
          some (assignedInputName (k + 1) (l.get ⟨k, hk⟩))) ∧
    (∀ (l : List ProcessingOutput) (r : List ProcessingOutput) (u : List UploadCall),
      _normalize_outputs bucket jobName (some (l.map PyObj.valid)) = .ok r u →
      r.length = l.length ∧
      ∀ (k : Nat) (hk : k < l.length) (hk2 : k < r.length),
        (r.get ⟨k, hk2⟩).output_name =
          some (assignedOutputName (k + 1) (l.get ⟨k, hk⟩))) := by
  constructor
  · intro l r u h
    simp only [_normalize_inputs] at h
    rw [normalizeInputsFrom_map_valid] at h
    injection h with h1 h2
    subst h1
    refine ⟨normalizedInputs_length bucket jobName 1 l, ?_⟩
    intro k hk hk2
    rw [normalizedInputs_get bucket jobName 1 l k hk hk2, normalizeInputStep_name,
      Nat.add_comm 1 k]
  · intro l r u h
    simp only [_normalize_outputs] at h
    rw [normalizeOutputsFrom_map_valid] at h
    injection h with h1 h2
    subst h1
    refine ⟨normalizedOutputs_length bucket jobName 1 l, ?_⟩
    intro k hk hk2
    rw [normalizedOutputs_get bucket jobName 1 l k hk hk2, normalizeOutputStep_name,
      Nat.add_comm 1 k]

/-- C2 witness: an unnamed input at position 1 gets the name `input-1`, an
unnamed output at position 1 gets `output-1`. -/
theorem C2_default_names_witness :
    (([ProcessingInput.mk "s3://b/d" "/opt" (some "input-1") "ManifestFile"
        "File" "Continuous" "FullyReplicated" (some "None")] :
      List ProcessingInput).get ⟨0, by decide⟩).input_name = some "input-1" ∧
    (([ProcessingOutput.mk "/src" "s3://b/out" (some "output-1") none
        "Continuous"] :
      List ProcessingOutput).get ⟨0, by decide⟩).output_name = some "output-1" :=
  ⟨(((C2_default_names "b" "j").1
      [ProcessingInput.mk "s3://b/d" "/opt" none "ManifestFile" "File"
        "Continuous" "FullyReplicated" (some "None")]
      [ProcessingInput.mk "s3://b/d" "/opt" (some "input-1") "ManifestFile"
        "File" "Continuous" "FullyReplicated" (some "None")] []
      (by decide)).2 0 (by decide) (by decide)).trans (by decide),
   (((C2_default_names "b" "j").2
      [ProcessingOutput.mk "/src" "s3://b/out" none none "Continuous"]
      [ProcessingOutput.mk "/src" "s3://b/out" (some "output-1") none
        "Continuous"] []
      (by decide)).2 0 (by decide) (by decide)).trans (by decide)⟩

/-- C10: normalization returns one descriptor per given descriptor, and on
each one every field other than `input_name` and `source` (for inputs) or
`output_name` and `destination` (for outputs) is unchanged. -/
theorem C10_normalization_frame (bucket jobName : String) :
    (∀ (l : List ProcessingInput) (r : List ProcessingInput) (u : List UploadCall),
      _normalize_inputs bucket jobName (some (l.map PyObj.valid)) = .ok r u →
      r.length = l.length ∧
      ∀ (k : Nat) (hk : k < l.length) (hk2 : k < r.length),
        (r.get ⟨k, hk2⟩).destination = (l.get ⟨k, hk⟩).destination ∧
        (r.get ⟨k, hk2⟩).s3_data_type = (l.get ⟨k, hk⟩).s3_data_type ∧
        (r.get ⟨k, hk2⟩).s3_input_mode = (l.get ⟨k, hk⟩).s3_input_mode ∧
        (r.get ⟨k, hk2⟩).s3_download_mode = (l.get ⟨k, hk⟩).s3_download_mode ∧
        (r.get ⟨k, hk2⟩).s3_data_distribution_type =
          (l.get ⟨k, hk⟩).s3_data_distribution_type ∧
        (r.get ⟨k, hk2⟩).s3_compression_type = (l.get ⟨k, hk⟩).s3_compression_type) ∧
    (∀ (l : List ProcessingOutput) (r : List ProcessingOutput) (u : List UploadCall),
      _normalize_outputs bucket jobName (some (l.map PyObj.valid)) = .ok r u →
      r.length = l.length ∧
      ∀ (k : Nat) (hk : k < l.length) (hk2 : k < r.length),
        (r.get ⟨k, hk2⟩).source = (l.get ⟨k, hk⟩).source ∧
        (r.get ⟨k, hk2⟩).kms_key_id = (l.get ⟨k, hk⟩).kms_key_id ∧
        (r.get ⟨k, hk2⟩).s3_upload_mode = (l.get ⟨k, hk⟩).s3_upload_mode) := by
  constructor
  · intro l r u h
    simp only [_normalize_inputs] at h
    rw [normalizeInputsFrom_map_valid] at h
    injection h with h1 h2
    subst h1
    refine ⟨normalizedInputs_length bucket jobName 1 l, ?_⟩
    intro k hk hk2
    rw [normalizedInputs_get bucket jobName 1 l k hk hk2]
    exact normalizeInputStep_frame bucket jobName (1 + k) (l.get ⟨k, hk⟩)
  · intro l r u h
    simp only [_normalize_outputs] at h
    rw [normalizeOutputsFrom_map_valid] at h
    injection h with h1 h2
    subst h1
    refine ⟨normalizedOutputs_length bucket jobName 1 l, ?_⟩
    intro k hk hk2
    rw [normalizedOutputs_get bucket jobName 1 l k hk hk2]
    exact normalizeOutputStep_frame bucket jobName (1 + k) (l.get ⟨k, hk⟩)

/-- C10 witness: the destination of an input (resp. the source of an
output) survives normalization at a concrete descriptor. -/
theorem C10_normalization_frame_witness :
    (([ProcessingInput.mk "s3://b/d" "/opt" (some "input-1") "ManifestFile"
        "File" "Continuous" "FullyReplicated" (some "None")] :
      List ProcessingInput).get ⟨0, by decide⟩).destination =
      (([ProcessingInput.mk "s3://b/d" "/opt" none "ManifestFile" "File"
          "Continuous" "FullyReplicated" (some "None")] :
        List ProcessingInput).get ⟨0, by decide⟩).destination ∧
    (([ProcessingOutput.mk "/src" "s3://b/out" (some "output-1") none
        "Continuous"] : List ProcessingOutput).get ⟨0, by decide⟩).source =
      (([ProcessingOutput.mk "/src" "s3://b/out" none none "Continuous"] :
        List ProcessingOutput).get ⟨0, by decide⟩).source :=
  ⟨(((C10_normalization_frame "b" "j").1
      [ProcessingInput.mk "s3://b/d" "/opt" none "ManifestFile" "File"
        "Continuous" "FullyReplicated" (some "None")]
      [ProcessingInput.mk "s3://b/d" "/opt" (some "input-1") "ManifestFile"
        "File" "Continuous" "FullyReplicated" (some "None")] []
      (by decide)).2 0 (by decide) (by decide)).1,
   (((C10_normalization_frame "b" "j").2
      [ProcessingOutput.mk "/src" "s3://b/out" none none "Continuous"]
      [ProcessingOutput.mk "/src" "s3://b/out" (some "output-1") none
        "Continuous"] []
      (by decide)).2 0 (by decide) (by decide)).1⟩

/-- C1 counterexample: an output whose destination is a local path is
rewritten to `s3://bucket/job-name/output` — WITHOUT the output name as a
final component, contradicting the claimed
`s3://<bucket>/<job-name>/output/<output-name>`. -/
theorem C1_counterexample :
    _normalize_outputs "mybucket" "job-1" (some [PyObj.valid
      (ProcessingOutput.mk "/opt/ml/out" "/local/out" (some "out1") none
        "Continuous")]) =
      NormOutcome.ok [ProcessingOutput.mk "/opt/ml/out"
        "s3://mybucket/job-1/output" (some "out1") none "Continuous"] [] ∧
    "s3://mybucket/job-1/output" ≠ "s3://mybucket/job-1/output/out1" :=
  ⟨by decide, by decide⟩

/-- C1 (amended): after normalization, an input whose source is not an `s3`
URI has source `s3://<bucket>/<job-name>/input/<input-name>` (and that
upload call was made through the uploader), while an output whose
destination is not an `s3` URI has destination
`s3://<bucket>/<job-name>/output` — with no output-name component. -/
theorem C1_local_paths_rewritten (bucket jobName : String)
    (hb : bucket ≠ "") (hbs : startsWithSlash bucket = false)
    (hbe : endsWithSlash bucket = false) (hj : jobName ≠ "")
    (hjs : startsWithSlash jobName = false) (hje : endsWithSlash jobName = false) :
    (∀ (l : List ProcessingInput) (r : List ProcessingInput) (u : List UploadCall),
      _normalize_inputs bucket jobName (some (l.map PyObj.valid)) = .ok r u →
      ∀ (k : Nat) (hk : k < l.length) (hk2 : k < r.length),
        urlScheme (l.get ⟨k, hk⟩).source ≠ "s3" →
        startsWithSlash (assignedInputName (k + 1) (l.get ⟨k, hk⟩)) = false →
        (r.get ⟨k, hk2⟩).source =
          "s3://" ++ bucket ++ "/" ++ jobName ++ "/input/" ++
            assignedInputName (k + 1) (l.get ⟨k, hk⟩) ∧
        UploadCall.mk (l.get ⟨k, hk⟩).source
          ("s3://" ++ bucket ++ "/" ++ jobName ++ "/input/" ++
            assignedInputName (k + 1) (l.get ⟨k, hk⟩)) ∈ u) ∧
    (∀ (l : List ProcessingOutput) (r : List ProcessingOutput) (u : List UploadCall),
      _normalize_outputs bucket jobName (some (l.map PyObj.valid)) = .ok r u →
      ∀ (k : Nat) (hk : k < l.length) (hk2 : k < r.length),
        urlScheme (l.get ⟨k, hk⟩).destination ≠ "s3" →
        (r.get ⟨k, hk2⟩).destination =
          "s3://" ++ bucket ++ "/" ++ jobName ++ "/output") := by
  constructor
  · intro l r u h
    simp only [_normalize_inputs] at h
    rw [normalizeInputsFrom_map_valid] at h
    injection h with h1 h2
    subst h1
    subst h2
    intro k hk hk2 hsrc hname
    have hloc := normalizeInputStep_local bucket jobName (k + 1) (l.get ⟨k, hk⟩) hsrc
    have hjoin := osPathJoin_s3_input bucket jobName
      (assignedInputName (k + 1) (l.get ⟨k, hk⟩)) hb hbs hbe hj hjs hje hname
    constructor
    · rw [normalizedInputs_get bucket jobName 1 l k hk hk2, Nat.add_comm 1 k,
        hloc.1, hjoin]
    · have hx : UploadCall.mk (l.get ⟨k, hk⟩).source
          ("s3://" ++ bucket ++ "/" ++ jobName ++ "/input/" ++
            assignedInputName (k + 1) (l.get ⟨k, hk⟩)) ∈
          (normalizeInputStep bucket jobName (k + 1) (l.get ⟨k, hk⟩)).2 := by
        rw [hloc.2, hjoin]
        exact List.mem_singleton.mpr rfl
      apply inputUploads_mem bucket jobName 1 l k hk
      rw [Nat.add_comm 1 k]
      exact hx
  · intro l r u h
    simp only [_normalize_outputs] at h
    rw [normalizeOutputsFrom_map_valid] at h
    injection h with h1 h2
    subst h1
    intro k hk hk2 hdst
    rw [normalizedOutputs_get bucket jobName 1 l k hk hk2, Nat.add_comm 1 k,
      normalizeOutputStep_local bucket jobName (k + 1) (l.get ⟨k, hk⟩) hdst,
      osPathJoin_s3_output bucket jobName hb hbs hbe hj hjs hje]

/-- C1 witness: a local input source is rewritten to the derived remote
URI, and a local output destination to the job output prefix. -/
theorem C1_local_paths_rewritten_witness :
    (([ProcessingInput.mk "s3://mybucket/job-1/input/input-1" "/opt/ml"
        (some "input-1") "ManifestFile" "File" "Continuous" "FullyReplicated"
        (some "None")] : List ProcessingInput).get ⟨0, by decide⟩).source =
      "s3://mybucket/job-1/input/input-1" ∧
    (([ProcessingOutput.mk "/src" "s3://mybucket/job-1/output" (some "output-1")
        none "Continuous"] : List ProcessingOutput).get
          ⟨0, by decide⟩).destination = "s3://mybucket/job-1/output" :=
  ⟨((C1_local_paths_rewritten "mybucket" "job-1" (by decide) (by decide)
      (by decide) (by decide) (by decide) (by decide)).1
      [ProcessingInput.mk "/local/data" "/opt/ml" none "ManifestFile" "File"
        "Continuous" "FullyReplicated" (some "None")]
      [ProcessingInput.mk "s3://mybucket/job-1/input/input-1" "/opt/ml"
        (some "input-1") "ManifestFile" "File" "Continuous" "FullyReplicated"
        (some "None")]
      [UploadCall.mk "/local/data" "s3://mybucket/job-1/input/input-1"]
      (by decide) 0 (by decide) (by decide) (by decide) (by decide)).1,
   (C1_local_paths_rewritten "mybucket" "job-1" (by decide) (by decide)
      (by decide) (by decide) (by decide) (by decide)).2
      [ProcessingOutput.mk "/src" "/local/out" none none "Continuous"]
      [ProcessingOutput.mk "/src" "s3://mybucket/job-1/output" (some "output-1")
        none "Continuous"] []
      (by decide) 0 (by decide) (by decide) (by decide)⟩

end SMProcessing
